import Mathlib

/-!
Verification development for the NavAI planning and session-orchestration
engine (apps/extension/src/shared/planner.ts, apps/extension/src/content.ts
with its background service worker, apps/extension/src/shared/types.ts).

The TypeScript source is shallowly embedded: each exported function becomes a
Lean function over the same data model.  JavaScript strings are Lean
`String`s; string helpers (`toLowerCase`, `includes`, `substring`, `trim`,
split) are re-implemented over `List Char` so that all definitions reduce in
the kernel.  `Array.prototype.sort` (required stable since ES2019) is modelled
by `List.insertionSort`, which is stable; for a total comparator a stable sort
has a unique result, so this is extensionally the source's behaviour.
Numbers appearing in element geometry are modelled as `Int`.
-/

namespace NavAI

/-- Model of JS `hay.includes(needle)` on lists of characters. -/
def containsSub : List Char → List Char → Bool
  | [], needle => needle.isEmpty
  | c :: cs, needle => needle.isPrefixOf (c :: cs) || containsSub cs needle

/-- Model of JS `hay.includes(needle)` for strings. -/
def strIncludes (hay needle : String) : Bool :=
  containsSub hay.toList needle.toList

/-- Model of JS `s.toLowerCase()` (ASCII-faithful). -/
def strLower (s : String) : String :=
  String.mk (s.toList.map Char.toLower)

/-- Model of JS `s.substring(0, n)`. -/
def strTake (s : String) (n : Nat) : String :=
  String.mk (s.toList.take n)

/-- Model of JS `s.trim()`. -/
def strTrim (s : String) : String :=
  String.mk (((s.toList.dropWhile Char.isWhitespace).reverse.dropWhile Char.isWhitespace).reverse)

/-- Splits a character list into maximal non-whitespace runs (the accumulator
holds the current run reversed). -/
def wordsAux : List Char → List Char → List (List Char)
  | [], acc => if acc.isEmpty then [] else [acc.reverse]
  | c :: cs, acc =>
    if c.isWhitespace then
      (if acc.isEmpty then wordsAux cs [] else acc.reverse :: wordsAux cs [])
    else wordsAux cs (c :: acc)

/-- Model of JS `split(/\s+/)` followed by dropping empty pieces (the caller
filters tokens by length, so empty pieces never survive in the source either). -/
def splitWords (cs : List Char) : List String :=
  (wordsAux cs []).map String.mk

/-- Truthiness of an optional boolean field (JS `!!x` for `x?: boolean`). -/
def oTrue (o : Option Bool) : Bool := o.getD false

-- ── Data model (shared/types.ts) ────────────────────────────────

/-- ActionType from shared/types.ts. -/
inductive ActionType where
  | click
  | type
  | select
  | scroll
  | wait
deriving DecidableEq, Repr

/-- PlannerMode from shared/types.ts. -/
inductive PlannerMode where
  | heuristic
  | llm
deriving DecidableEq, Repr

/-- Geometric rectangle of a PageElement. -/
structure Rect where
  top : Int
  left : Int
  width : Int
  height : Int
deriving DecidableEq, Repr

/-- PageElement from shared/types.ts. -/
structure PageElement where
  idx : Nat
  tag : String
  role : String
  text : String
  label : String
  selector : String
  rect : Rect
  isInput : Bool
  inputType : Option String := none
  placeholder : Option String := none
  value : Option String := none
  isRequired : Option Bool := none
  isFilled : Option Bool := none
  isInViewport : Bool
  isInDialog : Bool
deriving DecidableEq, Repr

/-- PageData from shared/types.ts (the spec's PageSnapshot; `hasOpenDialog`
is the spec's `hasActivePanel`, `isInDialog` its in-active-panel flag). -/
structure PageData where
  url : String
  title : String
  elements : List PageElement
  hasOpenDialog : Bool
deriving DecidableEq, Repr

/-- GuidanceStep from shared/types.ts. -/
structure GuidanceStep where
  stepNumber : Nat
  action : ActionType
  selector : String
  textHint : String
  instruction : String
deriving DecidableEq, Repr

/-- ActionRecord from shared/types.ts. -/
structure ActionRecord where
  step : Nat
  action : ActionType
  selector : String
  text : String
deriving DecidableEq, Repr

/-- SessionState from shared/types.ts (the newer worker's shape, which has
the `completed` latch). -/
structure SessionState where
  goal : String
  active : Bool
  completed : Bool
  step : Nat
  current : Option GuidanceStep
  history : List ActionRecord
  mode : PlannerMode
deriving DecidableEq, Repr

/-- LLMConfig from shared/types.ts (provider selection only affects the
request payload, not the decision logic, so it is kept as a string). -/
structure LLMConfig where
  provider : String
  endpoint : String
  apiKey : String
  model : String
deriving DecidableEq, Repr

-- ── Keyword vocabularies (planner.ts) ───────────────────────────

/-- STOP_WORDS from planner.ts. -/
def STOP_WORDS : List String :=
  ["a","an","the","for","to","of","in","on","and","or","is","my","i","it",
   "this","that","do","you","your","me","can","will","how"]

/-- CTA vocabulary from planner.ts. -/
def CTA : List String :=
  ["apply","start","next","continue","submit","search","book","confirm",
   "proceed","sign in","log in","register","enroll","flight","hotel","add",
   "create","send","save","checkout","buy","order","pay","begin",
   "get started","go","enter","open"]

/-- PROGRESS vocabulary from planner.ts. -/
def PROGRESS : List String :=
  ["next","continue","proceed","submit","confirm","done","finish","complete",
   "save","send","apply"]

/-- PENALTY vocabulary from planner.ts. -/
def PENALTY : List String :=
  ["logout","log out","sign out","cancel","back","close","skip","no thanks",
   "maybe later","dismiss","advertisement","ad","cookie","privacy","terms",
   "unsubscribe","decline","reject"]

/-- LOGIN_WORDS from planner.ts. -/
def LOGIN_WORDS : List String :=
  ["sign in","log in","login","signin","email","username","password"]

/-- SUCCESS_WORDS from planner.ts. -/
def SUCCESS_WORDS : List String :=
  ["success","thank you","thanks","congratulations","confirmed","complete",
   "submitted","done","receipt","order placed","booking confirmed",
   "payment received"]

/-- tokenize from planner.ts: lowercase, replace non-[a-z0-9 whitespace] by a
space, split on whitespace, keep tokens longer than 1 that are not stop words. -/
def tokenize (s : String) : List String :=
  let cleaned : List Char :=
    (strLower s).toList.map fun c =>
      if c.isWhitespace || ('a' ≤ c && c ≤ 'z') || ('0' ≤ c && c ≤ '9') then c else ' '
  (splitWords cleaned).filter fun w => w.length > 1 && !STOP_WORDS.contains w

-- ── Page phase detection (planner.ts, detectPhase) ──────────────

/-- PagePhase from planner.ts. -/
inductive PagePhase where
  | login
  | formFill
  | navigation
  | submitReady
  | success
deriving DecidableEq, Repr

/-- The two success-word scans at the top of detectPhase: title/URL first,
then the joined lowercased text of the first 20 elements. -/
def successHit (page : PageData) : Bool :=
  let pageLower := strLower (page.title ++ " " ++ page.url)
  SUCCESS_WORDS.any (fun w => strIncludes pageLower w) ||
    (let visibleText :=
      String.intercalate " " ((page.elements.take 20).map fun e => strLower e.text)
     SUCCESS_WORDS.any (fun w => strIncludes visibleText w))

/-- detectPhase's email/username-input scan (planner.ts line 39): the raw
`inputType` attribute is matched case-sensitively, placeholder and label are
lowercased first. -/
def hasEmailInput (page : PageData) : Bool :=
  page.elements.any fun e =>
    e.isInput && (["email", "username"].any fun t =>
      strIncludes (e.inputType.getD "") t ||
      strIncludes (strLower (e.placeholder.getD "")) t ||
      strIncludes (strLower e.label) t)

/-- detectPhase's password-input scan (planner.ts line 40): exact
`inputType === 'password'` or a lowercased-placeholder substring; the label is
not consulted. -/
def hasPasswordInput (page : PageData) : Bool :=
  page.elements.any fun e =>
    e.isInput && (e.inputType == some "password" ||
      strIncludes (strLower (e.placeholder.getD "")) "password")

/-- detectPhase from planner.ts. -/
def detectPhase (page : PageData) : PagePhase :=
  if successHit page then .success
  else if hasEmailInput page && hasPasswordInput page then .login
  else
    let emptyInputs := page.elements.filter fun e =>
      e.isInput && !(oTrue e.isFilled) && e.inputType ≠ some "hidden" &&
        e.inputType ≠ some "submit" && e.inputType ≠ some "button"
    let filledInputs := page.elements.filter fun e => e.isInput && oTrue e.isFilled
    if emptyInputs.length > 0 then .formFill
    else if filledInputs.length > 0 then .submitReady
    else .navigation

-- ── Heuristic scorer (planner.ts, score) ────────────────────────

/-- score from planner.ts.  Each `for`-loop accumulation `s += k` over a word
list becomes `k * countP` (one increment per matching vocabulary entry). -/
def score (el : PageElement) (keywords : List String) (usedSelectors : List String)
    (usedTexts : List String) (phase : PagePhase) (hasOpenDialog : Bool) : Int :=
  let txt := strLower el.text
  let lbl := strLower el.label
  let ph := strLower (el.placeholder.getD "")
  let combined := txt ++ " " ++ lbl ++ " " ++ ph
  if usedSelectors.contains el.selector then -1000
  else
    let s : Int := 0
    let s := if el.text.length > 3 &&
        usedTexts.any (fun t => t.length > 3 && strIncludes t (strTake el.text 20)) then
        s - 50 else s
    if hasOpenDialog && !el.isInDialog then -2000
    else
    let s := if hasOpenDialog then s + 30 else s
    let s := if el.isInViewport then s + 5 else s
    let s := if phase = .login then
        let s := if el.isInput && !(oTrue el.isFilled) then
            (if el.inputType == some "email" || strIncludes ph "email" ||
                strIncludes lbl "email" || strIncludes ph "username" ||
                strIncludes lbl "username" then s + 40
             else if el.inputType == some "password" || strIncludes ph "password" ||
                strIncludes lbl "password" then s + 35
             else s)
          else s
        let s := s + 15 * (LOGIN_WORDS.countP (fun w => strIncludes combined w) : Int)
        if !el.isInput && el.isFilled.isNone then
          s + 10 * (LOGIN_WORDS.countP (fun w => strIncludes combined w) : Int)
        else s
      else s
    let s := if phase = .formFill then
        let s := if el.isInput && !(oTrue el.isFilled) then
            let s := s + 25
            let s := if oTrue el.isRequired then s + 10 else s
            s + 15 * (keywords.countP (fun k => strIncludes lbl k || strIncludes ph k) : Int)
          else s
        if el.isInput && oTrue el.isFilled then s - 30 else s
      else s
    let s := if phase = .submitReady then
        let s := s + 25 * (PROGRESS.countP (fun w => strIncludes combined w) : Int)
        if el.isInput && oTrue el.isFilled then s - 30 else s
      else s
    let s := if phase = .navigation then
        let s := s + 20 * (keywords.countP (fun k => strIncludes txt k) : Int)
        let s := s + 15 * (keywords.countP (fun k => strIncludes lbl k) : Int)
        s + 8 * (CTA.countP (fun c => strIncludes combined c) : Int)
      else s
    let s := s + 12 * (keywords.countP (fun k => strIncludes txt k) : Int)
    let s := s + 10 * (keywords.countP (fun k => strIncludes lbl k) : Int)
    let s := s + 8 * (keywords.countP (fun k => strIncludes ph k) : Int)
    let s := s + 5 * (CTA.countP (fun c => strIncludes txt c) : Int)
    let s := s - 25 * (PENALTY.countP (fun p => strIncludes combined p) : Int)
    let s := if el.tag == "button" || el.role == "button" then s + 3 else s
    let s := if el.tag == "a" then s + 1 else s
    let s := if el.isInput && !(oTrue el.isFilled) then s + 2 else s
    let s := if el.rect.width > 100 && el.rect.height > 30 then s + 2 else s
    let s := if el.rect.top < 600 then s + 1 else s
    s

/-- actionFor from planner.ts. -/
def actionFor (el : PageElement) : ActionType :=
  if el.isInput then
    let t := strLower (el.inputType.getD "text")
    if ["checkbox", "radio", "submit", "button", "file"].contains t then .click
    else if el.tag == "select" then .select
    else .type
  else if el.tag == "select" then .select
  else .click

/-- instructionFor from planner.ts (JS `x || y` on strings means "first
non-empty"). -/
def instructionFor (el : PageElement) (action : ActionType) (phase : PagePhase) : String :=
  let name :=
    if el.label ≠ "" then el.label
    else if strTake el.text 50 ≠ "" then strTake el.text 50
    else if el.placeholder.getD "" ≠ "" then el.placeholder.getD ""
    else "this element"
  if phase = .login ∧ (el.inputType == some "email" ||
      strIncludes (strLower (el.placeholder.getD "")) "email") then
    "Enter your email address"
  else if phase = .login ∧ el.inputType == some "password" then
    "Enter your password"
  else if phase = .login ∧ action = .click then
    s!"Click \"{name}\" to sign in"
  else if action = .click then s!"Click \"{name}\""
  else if action = .type then
    let tname :=
      if el.label ≠ "" then el.label
      else if el.placeholder.getD "" ≠ "" then el.placeholder.getD ""
      else "information"
    s!"Enter your {tname}"
  else if action = .select then s!"Select an option from \"{name}\""
  else s!"Interact with \"{name}\""

-- ── Heuristic planner (planner.ts, heuristicPlan) ───────────────

/-- Selectors already acted on (`new Set(state.history.map(h => h.selector))`;
set membership is string equality, so a list with `contains` is faithful). -/
def usedSelectorsOf (st : SessionState) : List String :=
  st.history.map (·.selector)

/-- Texts already acted on, as in heuristicPlan. -/
def usedTextsOf (st : SessionState) : List String :=
  (st.history.map (·.text)).filter fun t => t.length > 3

/-- Every element paired with its score, in snapshot order. -/
def scoredOf (page : PageData) (st : SessionState) : List (PageElement × Int) :=
  page.elements.map fun el =>
    (el, score el (tokenize st.goal) (usedSelectorsOf st) (usedTextsOf st)
      (detectPhase page) page.hasOpenDialog)

/-- The JS comparator `(a, b) => b.score - a.score`: `a` may precede `b`
exactly when `b.2 ≤ a.2`. -/
def rankLe (a b : PageElement × Int) : Prop := b.2 ≤ a.2

instance : DecidableRel rankLe := fun a b => inferInstanceAs (Decidable (b.2 ≤ a.2))

/-- The `ranked` list of heuristicPlan: filter scores above −500, then the
stable descending sort. -/
def rankedOf (page : PageData) (st : SessionState) : List (PageElement × Int) :=
  List.insertionSort rankLe ((scoredOf page st).filter fun x => x.2 > -500)

/-- Construction of the GuidanceStep returned by heuristicPlan for a chosen
element. -/
def stepFor (st : SessionState) (phase : PagePhase) (el : PageElement)
    (action : ActionType) : GuidanceStep :=
  { stepNumber := st.step
    action := action
    selector := el.selector
    textHint := strTake el.text 60
    instruction := instructionFor el action phase }

/-- First fallback of heuristicPlan: the first visible unfilled unused input. -/
def fallbackInputEl (page : PageData) (usedSelectors : List String) : Option PageElement :=
  page.elements.find? fun e =>
    e.isInput && !(oTrue e.isFilled) && e.isInViewport && !usedSelectors.contains e.selector

/-- Second fallback of heuristicPlan: the first visible unused non-input
button/link. -/
def fallbackButtonEl (page : PageData) (usedSelectors : List String) : Option PageElement :=
  page.elements.find? fun e =>
    !e.isInput && e.isInViewport && !usedSelectors.contains e.selector &&
      (e.tag == "button" || e.role == "button" || e.tag == "a")

/-- The two ordered fallbacks at the end of heuristicPlan. -/
def fallbackPlan (page : PageData) (st : SessionState) (phase : PagePhase)
    (usedSelectors : List String) : Option GuidanceStep :=
  match fallbackInputEl page usedSelectors with
  | some fi => some (stepFor st phase fi (actionFor fi))
  | none =>
    match fallbackButtonEl page usedSelectors with
    | some fb => some (stepFor st phase fb .click)
    | none => none

/-- heuristicPlan from planner.ts. -/
def heuristicPlan (page : PageData) (st : SessionState) : Option GuidanceStep :=
  if page.elements.length = 0 then none
  else
    let phase := detectPhase page
    if phase = .success ∧ st.step > 1 then none
    else
      let usedSelectors := usedSelectorsOf st
      match (rankedOf page st).head? with
      | some top =>
        if top.2 > 0 then some (stepFor st phase top.1 (actionFor top.1))
        else fallbackPlan page st phase usedSelectors
      | none => fallbackPlan page st phase usedSelectors

/-- isSuccessPage from planner.ts. -/
def isSuccessPage (page : PageData) : Bool :=
  detectPhase page == .success

-- ── LLM planner (planner.ts, llmPlan) ───────────────────────────

/-- Outcome of the single `fetch` performed by llmPlan.  `aborted` covers the
AbortError/network-error catch (including the 15-second timeout); `response`
carries `res.ok` and the completion text extracted from the provider JSON
(`choices[0].message.content` or `content[0].text`), `none` when missing.
The prompt that llmPlan serialises influences only what the remote model sees,
not how its reply is handled, so it is not reproduced here. -/
inductive LlmTransport where
  | aborted
  | response (ok : Bool) (content : Option String)
deriving DecidableEq, Repr

/-- Character class of the regex `\w`. -/
def isWordChar (c : Char) : Bool :=
  ('a' ≤ c && c ≤ 'z') || ('A' ≤ c && c ≤ 'Z') || c.isDigit || c == '_'

/-- Matches a literal (given lowercased) case-insensitively at the head of the
input, returning the rest on success. -/
def dropLitCI : List Char → List Char → Option (List Char)
  | [], cs => some cs
  | _ :: _, [] => none
  | p :: ps, c :: cs => if c.toLower == p then dropLitCI ps cs else none

/-- Digits of `\d+` to the number `parseInt` yields. -/
def digitsToNat (ds : List Char) : Nat :=
  ds.foldl (fun n c => n * 10 + (c.toNat - '0'.toNat)) 0

/-- One anchored attempt of the regex `<Action>(\w+)\((\d+)?\)<\/Action>` with
the `i` flag: literal tag, then a greedy `\w+` (no backtracking is needed since
`(` is not a word character), `(`, optional greedy digits, `)`, closing tag. -/
def matchActionAt (cs : List Char) : Option (String × Option Nat) :=
  match dropLitCI "<action>".toList cs with
  | none => none
  | some r1 =>
    let w := r1.takeWhile isWordChar
    let r2 := r1.dropWhile isWordChar
    if w.isEmpty then none
    else
      match r2 with
      | '(' :: r3 =>
        let ds := r3.takeWhile Char.isDigit
        let r4 := r3.dropWhile Char.isDigit
        match r4 with
        | ')' :: r5 =>
          match dropLitCI "</action>".toList r5 with
          | none => none
          | some _ => some (String.mk w, if ds.isEmpty then none else some (digitsToNat ds))
        | _ => none
      | _ => none

/-- Leftmost match of the action regex, as `String.prototype.match` finds it. -/
def matchAction : List Char → Option (String × Option Nat)
  | [] => none
  | c :: cs =>
    match matchActionAt (c :: cs) with
    | some r => some r
    | none => matchAction cs

/-- Rest of the input after the first case-insensitive occurrence of a
(lowercased) literal, if any. -/
def afterCI (lit : List Char) : List Char → Option (List Char)
  | [] => dropLitCI lit []
  | c :: cs =>
    match dropLitCI lit (c :: cs) with
    | some r => some r
    | none => afterCI lit cs

/-- Characters before the first case-insensitive occurrence of a (lowercased)
literal, if the literal occurs at all. -/
def upToCI (lit : List Char) : List Char → Option (List Char)
  | [] => (dropLitCI lit []).map fun _ => []
  | c :: cs =>
    match dropLitCI lit (c :: cs) with
    | some _ => some []
    | none => (upToCI lit cs).map fun r => c :: r

/-- The thought regex `<Thought>(.*?)<\/Thought>` with flags `is`, followed by
`.trim()`; empty when absent, exactly as llmPlan computes `thought`. -/
def extractThought (raw : List Char) : String :=
  match afterCI "<thought>".toList raw with
  | none => ""
  | some rest =>
    match upToCI "</thought>".toList rest with
    | none => ""
    | some content => strTrim (String.mk content)

/-- llmPlan from planner.ts, from the point the transport resolves: a non-ok
response or an abort yields null; otherwise the completion text (plus the
re-appended `</Action>` stop sequence) is parsed, `wait` or a missing id or an
unknown element index yields null, and otherwise the step is built from the
referenced element with the model's trimmed thought as instruction when
non-empty. -/
def llmPlan (t : LlmTransport) (page : PageData) (st : SessionState)
    (_config : LLMConfig) : Option GuidanceStep :=
  match t with
  | .aborted => none
  | .response ok content =>
    if !ok then none
    else
      let raw := content.getD "" ++ "</Action>"
      match matchAction raw.toList with
      | none => none
      | some (name, idOpt) =>
        let actionName := strLower name
        let elementId : Int := match idOpt with | some n => (n : Int) | none => -1
        if actionName == "wait" || elementId < 0 then none
        else
          match page.elements.find? (fun e => (e.idx : Int) == elementId) with
          | none => none
          | some el =>
            let thought := extractThought raw.toList
            let action : ActionType :=
              if actionName == "type" then .type
              else if actionName == "select" then .select
              else .click
            let phase := detectPhase page
            some { stepNumber := st.step
                   action := action
                   selector := el.selector
                   textHint := strTake el.text 60
                   instruction := if thought ≠ "" then thought else instructionFor el action phase }

-- ── Session orchestrator (content.ts service worker) ────────────

/-- EMPTY_STATE from the service worker. -/
def EMPTY_STATE : SessionState :=
  { goal := ""
    active := false
    completed := false
    step := 1
    current := none
    history := []
    mode := .heuristic }

/-- Messages the worker emits while handling a trigger (STATE/COMPLETED/ERROR
broadcasts, SHOW_STEP/HIDE_OVERLAY sends to the tab). -/
inductive OutMsg where
  | stateMsg (st : SessionState)
  | completedMsg
  | errorMsg (m : String)
  | showStep (g : GuidanceStep)
  | hideOverlay
deriving DecidableEq, Repr

/-- The stuck-loop notice broadcast by processTab. -/
def stuckMsg : String :=
  "Seems stuck on the same element. Try clicking Skip or rephrase your goal."

/-- The no-candidate notice broadcast by processTab. -/
def noStepMsg : String :=
  "No clear next step found. Try \"Rescan\" or scroll to reveal more elements."

/-- The connectivity notice broadcast when the retry also fails. -/
def connectMsg : String :=
  "Could not connect to this page. Try refreshing."

/-- plan from the service worker: LLM first when mode is llm and an apiKey is
configured (JS truthiness of `llmConfig?.apiKey` is non-emptiness), falling
back to the heuristic planner when it yields null. -/
def plan (t : LlmTransport) (page : PageData) (llmConfig : Option LLMConfig)
    (st : SessionState) : Option GuidanceStep :=
  match llmConfig with
  | some cfg =>
    if st.mode = .llm ∧ cfg.apiKey ≠ "" then
      match llmPlan t page st cfg with
      | some s => some s
      | none => heuristicPlan page st
    else heuristicPlan page st
  | none => heuristicPlan page st

/-- The `recent` slice of isStuck: `history.slice(-3)` is `drop (length − 3)`,
which Nat subtraction makes exact also for short histories. -/
def recentOf (st : SessionState) : List ActionRecord :=
  st.history.drop (st.history.length - 3)

/-- isStuck from the service worker. -/
def isStuck (st : SessionState) (step : GuidanceStep) : Bool :=
  if (recentOf st).length < 3 then false
  else
    let sameSelector := (recentOf st).all fun h => h.selector == step.selector
    let sameText :=
      decide (step.textHint.length > 3) && (recentOf st).all fun h => h.text == step.textHint
    sameSelector || sameText

/-- The stuck test processTab applies to the planner's candidate (no candidate
is never stuck). -/
def stuckFor (st : SessionState) : Option GuidanceStep → Bool
  | some s => isStuck st s
  | none => false

/-- The tail of processTab: commit the surviving candidate as `current` (with a
STATE broadcast and a SHOW_STEP send), or record the absence of a candidate
(with a STATE broadcast and the no-step notice — processTab guards this branch
with `!state.completed`, which holds whenever it is reached). -/
def commitStep (st : SessionState) (stuckOut : List OutMsg) :
    Option GuidanceStep → SessionState × List OutMsg
  | some s =>
    ({ st with current := some s },
     stuckOut ++ [.stateMsg { st with current := some s }, .showStep s])
  | none =>
    if !st.completed then
      ({ st with current := none },
       stuckOut ++ [.stateMsg { st with current := none }, .errorMsg noStepMsg])
    else (st, stuckOut)

/-- Outcome of the snapshot extraction a plan pass performs: the first
EXTRACT message succeeds with a snapshot; or it throws and the retry scheduled
in the catch block succeeds with a snapshot; or the retry throws as well.
The restricted-URL and no-page-data branches of processTab only broadcast an
error and return without touching the session state, so they need no
constructor of their own. -/
inductive ExtractOutcome where
  | ok (page : PageData)
  | retryOk (page : PageData)
  | retryFailed
deriving DecidableEq, Repr

/-- The main body of processTab once a snapshot was extracted on the first
attempt: success detection, then planning with stuck-loop filtering and the
commit tail.  The source binds the planner result once with `let`; `plan` is
pure, so repeating the call is equivalent. -/
def processPage (t : LlmTransport) (page : PageData) (llmConfig : Option LLMConfig)
    (st : SessionState) : SessionState × List OutMsg :=
  if st.step > 1 && isSuccessPage page then
    ({ st with completed := true, current := none },
     [.stateMsg { st with completed := true, current := none }, .completedMsg, .hideOverlay])
  else
    commitStep st
      (if stuckFor st (plan t page llmConfig st) then [.errorMsg stuckMsg] else [])
      (if stuckFor st (plan t page llmConfig st) then none else plan t page llmConfig st)

/-- The retry branch of processTab's catch block: after the first EXTRACT
throws, the retried pass plans on the fresh snapshot and, when a candidate
exists, commits it to `current` directly — with no success detection, no
isStuck check and no active/completed re-check; when the planner declines, the
state is left untouched (no `current=null` write and no no-step notice). -/
def retryPass (t : LlmTransport) (page : PageData) (llmConfig : Option LLMConfig)
    (st : SessionState) : SessionState × List OutMsg :=
  match plan t page llmConfig st with
  | some s =>
    ({ st with current := some s },
     [.stateMsg { st with current := some s }, .showStep s])
  | none => (st, [])

/-- processTab from the service worker: the active/completed guard runs before
the try block, then the pass proceeds according to how snapshot extraction
went — first-attempt snapshot, retry-after-throw snapshot, or a connectivity
error when the retry throws too.  Returns the new state plus the messages
emitted. -/
def processTab (t : LlmTransport) (ex : ExtractOutcome) (llmConfig : Option LLMConfig)
    (st : SessionState) : SessionState × List OutMsg :=
  if !st.active || st.completed then (st, [])
  else
    match ex with
    | .ok page => processPage t page llmConfig st
    | .retryOk page => retryPass t page llmConfig st
    | .retryFailed => (st, [.errorMsg connectMsg])

/-- The START handler's state reset. -/
def handleStart (goal : String) (mode : PlannerMode) : SessionState :=
  { EMPTY_STATE with goal := goal, active := true, completed := false, mode := mode }

/-- The bookkeeping shared by SKIP and ACTION_DONE: record the current step (if
any) in history, advance the step counter, clear `current`.  SKIP records the
current step's own action, ACTION_DONE the action reported in the message. -/
def recordAndAdvance (action : GuidanceStep → ActionType) (st : SessionState) : SessionState :=
  { st with
    history := st.history ++ (match st.current with
      | some c => [{ step := st.step, action := action c, selector := c.selector, text := c.textHint }]
      | none => [])
    step := st.step + 1
    current := none }

/-- The orchestrator triggers of the worker's message listener plus the
navigation listener.  Triggers that cause a plan pass carry the extraction
outcome of that pass and the LLM transport outcome of that pass. -/
inductive Trigger where
  | start (goal : String) (mode : PlannerMode) (ex : ExtractOutcome) (t : LlmTransport)
  | stop
  | skip (ex : ExtractOutcome) (t : LlmTransport)
  | rescan (ex : ExtractOutcome) (t : LlmTransport)
  | actionDone (a : ActionType) (ex : ExtractOutcome) (t : LlmTransport)
  | navChange (ex : ExtractOutcome) (t : LlmTransport)

/-- One orchestrator trigger: the handler's synchronous state mutation followed
by the plan pass it schedules (START/SKIP/RESCAN/ACTION_DONE/NAV_CHANGE all end
in processTab; STOP only resets and hides the overlay). -/
def stepTrigger (llmConfig : Option LLMConfig) : Trigger → SessionState → SessionState
  | .start g m ex t, _ => (processTab t ex llmConfig (handleStart g m)).1
  | .stop, _ => EMPTY_STATE
  | .skip ex t, st => (processTab t ex llmConfig (recordAndAdvance (·.action) st)).1
  | .rescan ex t, st => (processTab t ex llmConfig st).1
  | .actionDone a ex t, st =>
    if !st.active then st
    else (processTab t ex llmConfig (recordAndAdvance (fun _ => a) st)).1
  | .navChange ex t, st =>
    if !st.active then st
    else (processTab t ex llmConfig st).1

-- ── Specification-side definitions (for refinement comparisons) ─

/-- Modelled from the spec: the first element of the list attaining the
maximal score, i.e. "rank by score descending; ties broken by original
snapshot index" read off as a selection function.  A later element replaces
the current choice only when its score is strictly greater. -/
def pickBest : List (PageElement × Int) → Option (PageElement × Int)
  | [] => none
  | x :: xs =>
    match pickBest xs with
    | none => some x
    | some b => if b.2 > x.2 then some b else some x

/-- Modelled from the spec's description of heuristicPlan's selection, amended
by the behaviour the code actually has: empty snapshots and success-phase
snapshots with step > 1 yield null; otherwise the first element attaining the
maximal score is returned when that maximum is positive, and the two ordered
fallbacks apply otherwise. -/
def heuristicPlanSpec (page : PageData) (st : SessionState) : Option GuidanceStep :=
  if page.elements.length = 0 then none
  else
    let phase := detectPhase page
    if phase = .success ∧ st.step > 1 then none
    else
      match pickBest (scoredOf page st) with
      | some b =>
        if b.2 > 0 then some (stepFor st phase b.1 (actionFor b.1))
        else fallbackPlan page st phase (usedSelectorsOf st)
      | none => none

/-- Modelled from the claim's wording for C7: a "password-like" element
detected by attribute type, placeholder substring and label substring
matching, case-insensitively. -/
def passwordLikeClaim (e : PageElement) : Bool :=
  e.isInput && (strIncludes (strLower (e.inputType.getD "")) "password" ||
    strIncludes (strLower (e.placeholder.getD "")) "password" ||
    strIncludes (strLower e.label) "password")

/-- A step targets an in-panel element of the snapshot: some element carries
the step's selector and the in-active-panel flag. -/
def targetsInDialog (page : PageData) (s : GuidanceStep) : Bool :=
  page.elements.any fun e => e.isInDialog && e.selector == s.selector

-- ── Concrete instances used by counterexamples and witnesses ────

/-- C1 counterexample: the only element is outside the active panel. -/
def exPanelEl : PageElement :=
  { idx := 0, tag := "input", role := "input", text := "", label := "Name",
    selector := "#name", rect := ⟨0, 0, 0, 0⟩, isInput := true,
    inputType := some "text", isInViewport := true, isInDialog := false }

/-- C1 counterexample snapshot: a panel is active, yet the fallback input is
outside it. -/
def exPanelPage : PageData :=
  { url := "https://site.test/mail", title := "Mail", elements := [exPanelEl],
    hasOpenDialog := true }

/-- The step heuristicPlan returns on `exPanelPage`. -/
def exPanelStep : GuidanceStep :=
  { stepNumber := 1, action := .type, selector := "#name", textHint := "",
    instruction := "Enter your Name" }

/-- C1 witness: an in-panel button with a positive score. -/
def exPanelInEl : PageElement :=
  { idx := 0, tag := "button", role := "button", text := "Send", label := "",
    selector := "#send", rect := ⟨0, 0, 200, 40⟩, isInput := false,
    isInViewport := true, isInDialog := true }

/-- C1 witness snapshot. -/
def exPanelInPage : PageData :=
  { url := "https://site.test/mail", title := "Mail", elements := [exPanelInEl],
    hasOpenDialog := true }

/-- The step heuristicPlan returns on `exPanelInPage`. -/
def exPanelInStep : GuidanceStep :=
  { stepNumber := 1, action := .click, selector := "#send", textHint := "Send",
    instruction := "Click \"Send\"" }

/-- C2 counterexample: the element the model re-picks. -/
def exRepeatEl : PageElement :=
  { idx := 0, tag := "button", role := "button", text := "Go on", label := "",
    selector := "#a", rect := ⟨0, 0, 0, 0⟩, isInput := false,
    isInViewport := true, isInDialog := false }

/-- C2 counterexample snapshot. -/
def exRepeatPage : PageData :=
  { url := "https://site.test/page", title := "Page", elements := [exRepeatEl],
    hasOpenDialog := false }

/-- C2 counterexample LLM config (non-empty apiKey enables the llm path). -/
def exRepeatCfg : LLMConfig :=
  { provider := "openai", endpoint := "https://api.test/v1", apiKey := "key",
    model := "m" }

/-- C2 counterexample session: "#a" was already acted on at step 1. -/
def exRepeatSt : SessionState :=
  { EMPTY_STATE with
    active := true
    mode := .llm
    step := 2
    history := [{ step := 1, action := .click, selector := "#a", text := "Go on" }] }

/-- C2 counterexample transport: the model answers `click(0)` (the worker
re-appends the `</Action>` stop sequence). -/
def exRepeatT : LlmTransport := .response true (some "<Action>click(0)")

/-- The repeated step the plan pass commits in the C2 counterexample. -/
def exRepeatStep : GuidanceStep :=
  { stepNumber := 2, action := .click, selector := "#a", textHint := "Go on",
    instruction := "Click \"Go on\"" }

/-- C2 witness: a fresh clickable element. -/
def exNoRepEl : PageElement :=
  { idx := 0, tag := "button", role := "button", text := "Continue", label := "",
    selector := "#next", rect := ⟨0, 0, 200, 40⟩, isInput := false,
    isInViewport := true, isInDialog := false }

/-- C2 witness snapshot. -/
def exNoRepPage : PageData :=
  { url := "https://site.test/page", title := "Page", elements := [exNoRepEl],
    hasOpenDialog := false }

/-- C2 witness session in heuristic mode with one history record. -/
def exNoRepSt : SessionState :=
  { EMPTY_STATE with
    active := true
    step := 2
    history := [{ step := 1, action := .click, selector := "#prev", text := "Earlier" }] }

/-- The step committed in the C2 witness scenario. -/
def exNoRepStep : GuidanceStep :=
  { stepNumber := 2, action := .click, selector := "#next", textHint := "Continue",
    instruction := "Click \"Continue\"" }

/-- C3 counterexample: a completed session. -/
def exDoneSt : SessionState :=
  { EMPTY_STATE with goal := "g", active := true, completed := true, step := 3 }

/-- C3 witness page (content is irrelevant; completed sessions no-op). -/
def exDonePage : PageData :=
  { url := "https://site.test/done", title := "Done", elements := [], hasOpenDialog := false }

/-- C4/C5 element rendered as `[0] button "Submit"`. -/
def exStuckEl : PageElement :=
  { idx := 0, tag := "button", role := "button", text := "Submit", label := "",
    selector := "#submit", rect := ⟨0, 0, 200, 40⟩, isInput := false,
    isInViewport := true, isInDialog := false }

/-- C5 scenario snapshot (used by witness and counterexample). -/
def exStuckPage : PageData :=
  { url := "https://site.test/f", title := "Apply", elements := [exStuckEl],
    hasOpenDialog := false }

/-- One of the three identical "#submit" history records. -/
def exStuckRec : ActionRecord :=
  { step := 1, action := .click, selector := "#submit", text := "Submit" }

/-- C5 scenario session: the last 3 history records all target "#submit". -/
def exStuckSt : SessionState :=
  { EMPTY_STATE with
    active := true
    mode := .llm
    step := 4
    history := [exStuckRec, { exStuckRec with step := 2 }, { exStuckRec with step := 3 }] }

/-- C5 scenario LLM config. -/
def exStuckCfg : LLMConfig :=
  { provider := "openai", endpoint := "https://api.test/v1", apiKey := "key",
    model := "m" }

/-- C5 scenario transport: the model picks "#submit" a fourth time. -/
def exStuckT : LlmTransport := .response true (some "<Action>click(0)")

/-- The candidate the llm planner proposes in the C5 scenario. -/
def exStuckStep : GuidanceStep :=
  { stepNumber := 4, action := .click, selector := "#submit", textHint := "Submit",
    instruction := "Click \"Submit\"" }

/-- C4 witness element. -/
def exFbEl : PageElement :=
  { idx := 0, tag := "a", role := "a", text := "Apply now", label := "",
    selector := "#apply", rect := ⟨0, 0, 200, 40⟩, isInput := false,
    isInViewport := true, isInDialog := false }

/-- C4 witness snapshot. -/
def exFbPage : PageData :=
  { url := "https://site.test/lic", title := "License", elements := [exFbEl],
    hasOpenDialog := false }

/-- C4 witness session in llm mode. -/
def exFbSt : SessionState :=
  { EMPTY_STATE with active := true, mode := .llm, goal := "apply for license" }

/-- C4 witness LLM config with a configured key. -/
def exFbCfg : LLMConfig :=
  { provider := "openai", endpoint := "https://api.test/v1", apiKey := "key",
    model := "m" }

/-- C6 witness: an active session. -/
def exStepSt : SessionState :=
  { EMPTY_STATE with goal := "go", active := true }

/-- C6 witness page. -/
def exStepPage : PageData :=
  { url := "https://site.test/p", title := "Page", elements := [], hasOpenDialog := false }

/-- C7 counterexample: an email input. -/
def exPwEmailEl : PageElement :=
  { idx := 0, tag := "input", role := "input", text := "", label := "Email",
    selector := "#email", rect := ⟨0, 0, 200, 30⟩, isInput := true,
    inputType := some "email", isInViewport := true, isInDialog := false }

/-- C7 counterexample: a password field recognisable only by its label. -/
def exPwLabelEl : PageElement :=
  { idx := 1, tag := "input", role := "input", text := "", label := "Password",
    selector := "#pw", rect := ⟨0, 0, 200, 30⟩, isInput := true,
    inputType := some "text", isInViewport := true, isInDialog := false }

/-- C7 counterexample snapshot: email-like plus label-only password field. -/
def exPwPage : PageData :=
  { url := "https://site.test/signup", title := "Sign up",
    elements := [exPwEmailEl, exPwLabelEl], hasOpenDialog := false }

/-- C8 counterexample: a positively-scoring button on a success page. -/
def exSuccBtn : PageElement :=
  { idx := 0, tag := "button", role := "button", text := "Continue", label := "",
    selector := "#go", rect := ⟨0, 0, 0, 0⟩, isInput := false,
    isInViewport := true, isInDialog := false }

/-- C8 counterexample snapshot whose title matches a success word. -/
def exSuccPage : PageData :=
  { url := "https://site.test/done", title := "Success", elements := [exSuccBtn],
    hasOpenDialog := false }

/-- C8 counterexample session with step 2. -/
def exSuccSt : SessionState :=
  { EMPTY_STATE with active := true, step := 2 }

/-- C9/C10 sample page. -/
def exDetPage : PageData :=
  { url := "https://site.test/p", title := "Page", elements := [exNoRepEl],
    hasOpenDialog := false }

-- ═════════════════════════════════════════════════════════════════
-- Helper lemmas
-- ═════════════════════════════════════════════════════════════════

/-- A plan pass on a completed session is a no-op on the state. -/
lemma processTab_of_completed (t : LlmTransport) (ex : ExtractOutcome)
    (cfg : Option LLMConfig) (st : SessionState) (h : st.completed = true) :
    (processTab t ex cfg st).1 = st := by
  unfold processTab
  simp [h]

/-- A Boolean that is not true is false. -/
lemma bool_not_true {b : Bool} (h : ¬ b = true) : b = false := by
  cases hb : b
  · rfl
  · exact absurd hb h

/-- With the entry guard known false, a first-attempt pass is `processPage`. -/
lemma processTab_ok_eq (t : LlmTransport) (page : PageData) (cfg : Option LLMConfig)
    (st : SessionState) (hg : (!st.active || st.completed) = false) :
    processTab t (.ok page) cfg st = processPage t page cfg st := by
  unfold processTab
  rw [hg]
  rfl

/-- With the entry guard known false, a retry pass is `retryPass`. -/
lemma processTab_retryOk_eq (t : LlmTransport) (page : PageData) (cfg : Option LLMConfig)
    (st : SessionState) (hg : (!st.active || st.completed) = false) :
    processTab t (.retryOk page) cfg st = retryPass t page cfg st := by
  unfold processTab
  rw [hg]
  rfl

/-- The commit tail returns the state unchanged or with only `current`
rewritten. -/
lemma commitStep_state_cases (st : SessionState) (outs : List OutMsg)
    (o : Option GuidanceStep) :
    (commitStep st outs o).1 = st ∨ ∃ c, (commitStep st outs o).1 = { st with current := c } := by
  cases o with
  | some s => right; exact ⟨some s, rfl⟩
  | none =>
    simp only [commitStep]
    split
    · right; exact ⟨none, rfl⟩
    · left; rfl

/-- `processPage` returns the state unchanged, completion-latched, or with
only `current` rewritten. -/
lemma processPage_state_cases (t : LlmTransport) (page : PageData)
    (cfg : Option LLMConfig) (st : SessionState) :
    (processPage t page cfg st).1 = st ∨
    (processPage t page cfg st).1 = { st with completed := true, current := none } ∨
    (∃ c, (processPage t page cfg st).1 = { st with current := c }) := by
  unfold processPage
  split
  · right; left; rfl
  · rcases commitStep_state_cases st
      (if stuckFor st (plan t page cfg st) then [.errorMsg stuckMsg] else [])
      (if stuckFor st (plan t page cfg st) then none else plan t page cfg st) with h | ⟨c, h⟩
    · left; exact h
    · right; right; exact ⟨c, h⟩

/-- `retryPass` returns the state unchanged or with only `current` rewritten. -/
lemma retryPass_state_cases (t : LlmTransport) (page : PageData)
    (cfg : Option LLMConfig) (st : SessionState) :
    (retryPass t page cfg st).1 = st ∨
    (∃ c, (retryPass t page cfg st).1 = { st with current := c }) := by
  unfold retryPass
  cases plan t page cfg st with
  | none => left; rfl
  | some s => right; exact ⟨some s, rfl⟩

/-- A plan pass only ever rewrites the `current` and `completed` fields, on
every extraction outcome (the retry branch writes only `current`). -/
lemma processTab_state_cases (t : LlmTransport) (ex : ExtractOutcome)
    (cfg : Option LLMConfig) (st : SessionState) :
    (processTab t ex cfg st).1 = st ∨
    (processTab t ex cfg st).1 = { st with completed := true, current := none } ∨
    (∃ c, (processTab t ex cfg st).1 = { st with current := c }) := by
  unfold processTab
  split
  · left; rfl
  · cases ex with
    | ok page => exact processPage_state_cases t page cfg st
    | retryOk page =>
      rcases retryPass_state_cases t page cfg st with h | ⟨c, h⟩
      · left; exact h
      · right; right; exact ⟨c, h⟩
    | retryFailed => left; rfl

/-- Field preservation of a plan pass, read off from the three state shapes. -/
lemma processTab_fields (t : LlmTransport) (ex : ExtractOutcome)
    (cfg : Option LLMConfig) (st : SessionState) :
    (processTab t ex cfg st).1.step = st.step ∧
    (processTab t ex cfg st).1.history = st.history ∧
    (processTab t ex cfg st).1.goal = st.goal ∧
    (processTab t ex cfg st).1.active = st.active ∧
    (processTab t ex cfg st).1.mode = st.mode := by
  rcases processTab_state_cases t ex cfg st with h | h | ⟨c, h⟩ <;>
    rw [h] <;> exact ⟨rfl, rfl, rfl, rfl, rfl⟩

/-- When the success check cannot fire on a first-attempt snapshot, a plan
pass preserves `completed` (the retry and failure branches always do). -/
lemma processTab_completed_eq (t : LlmTransport) (ex : ExtractOutcome)
    (cfg : Option LLMConfig) (st : SessionState)
    (h : ∀ page, ex = ExtractOutcome.ok page →
      (decide (st.step > 1) && isSuccessPage page) = false) :
    (processTab t ex cfg st).1.completed = st.completed := by
  by_cases hg : (!st.active || st.completed) = true
  · rw [show processTab t ex cfg st = (st, []) from by unfold processTab; rw [if_pos hg]]
  · have hgf : (!st.active || st.completed) = false := bool_not_true hg
    cases ex with
    | ok page =>
      rw [processTab_ok_eq t page cfg st hgf]
      unfold processPage
      rw [h page rfl]
      simp only [Bool.false_eq_true, if_false]
      rcases commitStep_state_cases st
        (if stuckFor st (plan t page cfg st) then [.errorMsg stuckMsg] else [])
        (if stuckFor st (plan t page cfg st) then none else plan t page cfg st) with h2 | ⟨c, h2⟩ <;>
        rw [h2]
    | retryOk page =>
      rw [processTab_retryOk_eq t page cfg st hgf]
      rcases retryPass_state_cases t page cfg st with h2 | ⟨c, h2⟩ <;> rw [h2]
    | retryFailed =>
      rw [show processTab t .retryFailed cfg st = (st, [.errorMsg connectMsg]) from by
        unfold processTab; rw [if_neg hg]]

/-- `recordAndAdvance` touches only history, step and current. -/
lemma recordAndAdvance_fields (f : GuidanceStep → ActionType) (st : SessionState) :
    (recordAndAdvance f st).completed = st.completed ∧
    (recordAndAdvance f st).active = st.active ∧
    (recordAndAdvance f st).step = st.step + 1 := ⟨rfl, rfl, rfl⟩

/-- Head of a list known through `head?`. -/
lemma head?_mem {α : Type} {l : List α} {a : α} (h : l.head? = some a) : a ∈ l := by
  cases l with
  | nil => simp at h
  | cons x t =>
    simp only [List.head?_cons, Option.some.injEq] at h
    exact h ▸ List.mem_cons_self x t

/-- Unfolding equation of `pickBest` on a cons cell. -/
lemma pickBest_cons (a : PageElement × Int) (t : List (PageElement × Int)) :
    pickBest (a :: t) = match pickBest t with
      | none => some a
      | some b => if b.2 > a.2 then some b else some a := rfl

/-- `pickBest` cons equation when the tail has no maximum. -/
lemma pickBest_cons_none {t : List (PageElement × Int)} (a : PageElement × Int)
    (hp : pickBest t = none) : pickBest (a :: t) = some a := by
  rw [pickBest_cons, hp]

/-- `pickBest` cons equation when the tail has first maximum `c`. -/
lemma pickBest_cons_some {t : List (PageElement × Int)} {c : PageElement × Int}
    (a : PageElement × Int) (hp : pickBest t = some c) :
    pickBest (a :: t) = if c.2 > a.2 then some c else some a := by
  rw [pickBest_cons, hp]

/-- `pickBest` of a non-empty list is defined. -/
lemma pickBest_isSome (a : PageElement × Int) (t : List (PageElement × Int)) :
    ∃ b, pickBest (a :: t) = some b := by
  cases hp : pickBest t with
  | none => exact ⟨a, pickBest_cons_none a hp⟩
  | some c =>
    by_cases h : c.2 > a.2
    · exact ⟨c, by rw [pickBest_cons_some a hp, if_pos h]⟩
    · exact ⟨a, by rw [pickBest_cons_some a hp, if_neg h]⟩

/-- `pickBest` of the empty list only. -/
lemma pickBest_eq_none {l : List (PageElement × Int)} (h : pickBest l = none) : l = [] := by
  cases l with
  | nil => rfl
  | cons a t => obtain ⟨b, hb⟩ := pickBest_isSome a t; rw [hb] at h; cases h

/-- The element `pickBest` returns is in the list. -/
lemma pickBest_mem : ∀ {l : List (PageElement × Int)} {b}, pickBest l = some b → b ∈ l := by
  intro l
  induction l with
  | nil => intro b h; cases h
  | cons a t ih =>
    intro b h
    cases hp : pickBest t with
    | none => rw [pickBest_cons_none a hp] at h; cases h; exact List.mem_cons_self a t
    | some c =>
      rw [pickBest_cons_some a hp] at h
      by_cases hca : c.2 > a.2
      · rw [if_pos hca] at h; cases h; exact List.mem_cons_of_mem a (ih hp)
      · rw [if_neg hca] at h; cases h; exact List.mem_cons_self a t

/-- The element `pickBest` returns has maximal score. -/
lemma pickBest_le : ∀ {l : List (PageElement × Int)} {b}, pickBest l = some b →
    ∀ x ∈ l, x.2 ≤ b.2 := by
  intro l
  induction l with
  | nil => intro b h; cases h
  | cons a t ih =>
    intro b h x hx
    cases hp : pickBest t with
    | none =>
      rw [pickBest_cons_none a hp] at h; cases h
      rcases List.mem_cons.mp hx with rfl | hxt
      · exact le_refl _
      · rw [pickBest_eq_none hp] at hxt; cases hxt
    | some c =>
      rw [pickBest_cons_some a hp] at h
      by_cases hca : c.2 > a.2
      · rw [if_pos hca] at h; cases h
        rcases List.mem_cons.mp hx with rfl | hxt
        · exact le_of_lt hca
        · exact ih hp x hxt
      · rw [if_neg hca] at h; cases h
        rcases List.mem_cons.mp hx with rfl | hxt
        · exact le_refl _
        · exact le_trans (ih hp x hxt) (not_lt.mp hca)

/-- Filtering out scores at or below −500 does not change the first maximum
when that maximum lies above −500. -/
lemma pickBest_filter : ∀ {l : List (PageElement × Int)} {b}, pickBest l = some b →
    b.2 > -500 → pickBest (l.filter fun x => x.2 > -500) = some b := by
  intro l
  induction l with
  | nil => intro b h; cases h
  | cons a t ih =>
    intro b h hb
    cases hp : pickBest t with
    | none =>
      rw [pickBest_cons_none a hp] at h; cases h
      rw [pickBest_eq_none hp]
      simp only [List.filter_cons, List.filter_nil]
      rw [if_pos (by simpa using hb)]
      rfl
    | some c =>
      rw [pickBest_cons_some a hp] at h
      by_cases hca : c.2 > a.2
      · rw [if_pos hca] at h; cases h
        have ihc := ih hp hb
        simp only [List.filter_cons]
        by_cases hpa : a.2 > -500
        · rw [if_pos (by simpa using hpa), pickBest_cons_some a ihc, if_pos hca]
        · rw [if_neg (by simpa using hpa)]
          exact ihc
      · rw [if_neg hca] at h; cases h
        simp only [List.filter_cons]
        rw [if_pos (by simpa using hb)]
        cases hq : pickBest (t.filter fun x => x.2 > -500) with
        | none => exact pickBest_cons_none a hq
        | some d =>
          have hd : d ∈ t.filter fun x => x.2 > -500 := pickBest_mem hq
          have hdt : d ∈ t := List.mem_of_mem_filter hd
          have hdc : d.2 ≤ c.2 := pickBest_le hp d hdt
          rw [pickBest_cons_some a hq, if_neg (by omega)]

/-- The head of the ranked list is the first maximum of the filtered scores
(stability of the sort). -/
lemma headOrderedInsert (a : PageElement × Int) (m : List (PageElement × Int)) :
    (List.orderedInsert rankLe a m).head? =
      some (match m.head? with
        | none => a
        | some b => if rankLe a b then a else b) := by
  cases m with
  | nil => rfl
  | cons b t =>
    simp only [List.orderedInsert, List.head?_cons]
    split <;> simp

/-- The head of the stable descending sort is the first maximum. -/
lemma headInsertionSort (l : List (PageElement × Int)) :
    (List.insertionSort rankLe l).head? = pickBest l := by
  induction l with
  | nil => rfl
  | cons a t ih =>
    rw [List.insertionSort, headOrderedInsert, ih]
    cases hp : pickBest t with
    | none => rw [pickBest_cons_none a hp]
    | some b =>
      rw [pickBest_cons_some a hp]
      show some (if rankLe a b then a else b) = _
      rcases lt_or_ge a.2 b.2 with h | h
      · rw [if_neg (by simpa [rankLe] using not_le.mpr h), if_pos h]
      · rw [if_pos (show rankLe a b from h), if_neg (by omega)]

/-- Membership facts for the scored list. -/
lemma mem_scoredOf {page : PageData} {st : SessionState} {x : PageElement × Int}
    (hx : x ∈ scoredOf page st) :
    x.1 ∈ page.elements ∧
      x.2 = score x.1 (tokenize st.goal) (usedSelectorsOf st) (usedTextsOf st)
        (detectPhase page) page.hasOpenDialog := by
  rcases List.mem_map.mp hx with ⟨el, hel, heq⟩
  cases heq
  exact ⟨hel, rfl⟩

/-- Membership facts for the ranked list. -/
lemma mem_rankedOf {page : PageData} {st : SessionState} {x : PageElement × Int}
    (hx : x ∈ rankedOf page st) : x ∈ scoredOf page st ∧ x.2 > -500 := by
  have hm : x ∈ (scoredOf page st).filter fun y => y.2 > -500 :=
    (List.perm_insertionSort rankLe _).subset hx
  refine ⟨List.mem_of_mem_filter hm, ?_⟩
  have := List.of_mem_filter hm
  simpa using this

/-- An already-used element scores exactly −1000. -/
lemma score_of_used {el : PageElement} {kw used texts : List String} {phase : PagePhase}
    {dlg : Bool} (h : used.contains el.selector = true) :
    score el kw used texts phase dlg = -1000 := by
  unfold score
  rw [if_pos h]

/-- With an active panel, an element outside it never scores above −1000. -/
lemma score_dialog_le {el : PageElement} {kw used texts : List String} {phase : PagePhase}
    (h : el.isInDialog = false) :
    score el kw used texts phase true ≤ -1000 := by
  unfold score
  by_cases hu : used.contains el.selector = true
  · rw [if_pos hu]
  · rw [if_neg hu, if_pos (by simp [h])]
    norm_num

-- ═════════════════════════════════════════════════════════════════
-- Claim theorems
-- ═════════════════════════════════════════════════════════════════

/-- C10: for every session state, heuristicPlan on a snapshot with an empty
element list returns null, whatever the url, title and active-panel flag. -/
theorem heuristicPlan_empty_snapshot (url title : String) (dialog : Bool)
    (st : SessionState) :
    heuristicPlan { url := url, title := title, elements := [], hasOpenDialog := dialog } st
      = none := rfl

/-- C9: heuristicPlan is deterministic — two calls on the same snapshot and
session state return identical results. -/
theorem heuristicPlan_deterministic (page : PageData) (st : SessionState)
    (r₁ r₂ : Option GuidanceStep)
    (h₁ : heuristicPlan page st = r₁) (h₂ : heuristicPlan page st = r₂) :
    r₁ = r₂ := h₁.symm.trans h₂

/-- Witness for C9 at a concrete snapshot and state. -/
theorem heuristicPlan_deterministic_witness :
    some exNoRepStep = some exNoRepStep :=
  heuristicPlan_deterministic exNoRepPage exNoRepSt _ _ rfl rfl

/-- C3 counterexample: a STOP message alone already yields a state with
completed = false, so START is not the only trigger doing so. -/
theorem completed_latch_stop_cex :
    exDoneSt.completed = true ∧
      (stepTrigger none Trigger.stop exDoneSt).completed = false :=
  ⟨rfl, rfl⟩

/-- C3 (amended): once completed = true, no SKIP, RESCAN, ACTION_DONE,
NAV_CHANGE trigger or plan pass resets it; processing START — and also STOP —
yields completed = false. -/
theorem completed_latch :
    (∀ cfg ex t st, st.completed = true →
      (stepTrigger cfg (.skip ex t) st).completed = true) ∧
    (∀ cfg ex t st, st.completed = true →
      (stepTrigger cfg (.rescan ex t) st).completed = true) ∧
    (∀ cfg ex t a st, st.completed = true →
      (stepTrigger cfg (.actionDone a ex t) st).completed = true) ∧
    (∀ cfg ex t st, st.completed = true →
      (stepTrigger cfg (.navChange ex t) st).completed = true) ∧
    (∀ t ex cfg st, st.completed = true →
      ((processTab t ex cfg st).1).completed = true) ∧
    (∀ cfg g m ex t st, (stepTrigger cfg (.start g m ex t) st).completed = false) ∧
    (∀ cfg st, (stepTrigger cfg Trigger.stop st).completed = false) := by
  refine ⟨?_, ?_, ?_, ?_, ?_, ?_, ?_⟩
  · intro cfg ex t st h
    show ((processTab t ex cfg (recordAndAdvance (·.action) st)).1).completed = true
    rw [processTab_of_completed _ _ _ _ (show (recordAndAdvance (·.action) st).completed = true from h)]
    exact h
  · intro cfg ex t st h
    show ((processTab t ex cfg st).1).completed = true
    rw [processTab_of_completed _ _ _ _ h]; exact h
  · intro cfg ex t a st h
    show (if !st.active then st
      else (processTab t ex cfg (recordAndAdvance (fun _ => a) st)).1).completed = true
    split
    · exact h
    · rw [processTab_of_completed _ _ _ _ (show (recordAndAdvance (fun _ => a) st).completed = true from h)]
      exact h
  · intro cfg ex t st h
    show (if !st.active then st else (processTab t ex cfg st).1).completed = true
    split
    · exact h
    · rw [processTab_of_completed _ _ _ _ h]; exact h
  · intro t ex cfg st h
    rw [processTab_of_completed _ _ _ _ h]; exact h
  · intro cfg g m ex t st
    show ((processTab t ex cfg (handleStart g m)).1).completed = false
    rw [processTab_completed_eq _ _ _ _ (by intro p hp; rfl)]
    rfl
  · intro cfg st
    rfl

/-- Witness for C3 at a concrete completed session. -/
theorem completed_latch_witness :
    (stepTrigger none (.skip (.ok exDonePage) .aborted) exDoneSt).completed = true :=
  completed_latch.1 none (.ok exDonePage) .aborted exDoneSt rfl

/-- C6 counterexample: an ACTION_DONE received while the session is inactive
does not advance the step counter (the handler returns without mutating). -/
theorem step_counter_inactive_cex :
    EMPTY_STATE.active = false ∧
      (stepTrigger none (.actionDone .click (.ok exStepPage) .aborted) EMPTY_STATE).step
        = EMPTY_STATE.step :=
  ⟨rfl, rfl⟩

/-- C6 (amended): the step counter increases by exactly 1 on each SKIP and on
each ACTION_DONE received while active; an inactive ACTION_DONE leaves the
state unchanged; NAV_CHANGE and RESCAN preserve step and history; a plan pass
mutates only `current` and `completed`. -/
theorem step_counter :
    (∀ cfg ex t a st, st.active = true →
      (stepTrigger cfg (.actionDone a ex t) st).step = st.step + 1) ∧
    (∀ cfg ex t a st, st.active = false →
      stepTrigger cfg (.actionDone a ex t) st = st) ∧
    (∀ cfg ex t st, (stepTrigger cfg (.skip ex t) st).step = st.step + 1) ∧
    (∀ cfg ex t st, (stepTrigger cfg (.rescan ex t) st).step = st.step ∧
      (stepTrigger cfg (.rescan ex t) st).history = st.history) ∧
    (∀ cfg ex t st, (stepTrigger cfg (.navChange ex t) st).step = st.step ∧
      (stepTrigger cfg (.navChange ex t) st).history = st.history) ∧
    (∀ t ex cfg st,
      (processTab t ex cfg st).1.step = st.step ∧
      (processTab t ex cfg st).1.history = st.history ∧
      (processTab t ex cfg st).1.goal = st.goal ∧
      (processTab t ex cfg st).1.active = st.active ∧
      (processTab t ex cfg st).1.mode = st.mode) := by
  refine ⟨?_, ?_, ?_, ?_, ?_, processTab_fields⟩
  · intro cfg ex t a st h
    show (if !st.active then st
      else (processTab t ex cfg (recordAndAdvance (fun _ => a) st)).1).step = st.step + 1
    rw [h]
    simp only [Bool.not_true, Bool.false_eq_true, if_false]
    rw [(processTab_fields t ex cfg (recordAndAdvance (fun _ => a) st)).1]
    rfl
  · intro cfg ex t a st h
    show (if !st.active then st
      else (processTab t ex cfg (recordAndAdvance (fun _ => a) st)).1) = st
    simp [h]
  · intro cfg ex t st
    show ((processTab t ex cfg (recordAndAdvance (·.action) st)).1).step = st.step + 1
    rw [(processTab_fields t ex cfg (recordAndAdvance (·.action) st)).1]
    rfl
  · intro cfg ex t st
    exact ⟨(processTab_fields t ex cfg st).1, (processTab_fields t ex cfg st).2.1⟩
  · intro cfg ex t st
    show (if !st.active then st else (processTab t ex cfg st).1).step = st.step ∧
      (if !st.active then st else (processTab t ex cfg st).1).history = st.history
    split
    · exact ⟨rfl, rfl⟩
    · exact ⟨(processTab_fields t ex cfg st).1, (processTab_fields t ex cfg st).2.1⟩

/-- Witness for C6 at a concrete active session. -/
theorem step_counter_witness :
    (stepTrigger none (.actionDone .click (.ok exStepPage) .aborted) exStepSt).step
      = exStepSt.step + 1 :=
  step_counter.1 none (.ok exStepPage) .aborted .click exStepSt rfl

/-- Plan resolves to the heuristic planner whenever the mode is heuristic. -/
lemma plan_heuristic {t : LlmTransport} {page : PageData} {cfg : Option LLMConfig}
    {st : SessionState} (h : st.mode = .heuristic) :
    plan t page cfg st = heuristicPlan page st := by
  unfold plan
  cases cfg with
  | none => rfl
  | some c =>
    show (if st.mode = PlannerMode.llm ∧ c.apiKey ≠ "" then
        (match llmPlan t page st c with
          | some s => some s
          | none => heuristicPlan page st)
      else heuristicPlan page st) = heuristicPlan page st
    rw [if_neg]
    rintro ⟨h1, -⟩
    rw [h] at h1
    cases h1

/-- The committed `current` of the commit tail. -/
lemma commitStep_current (st : SessionState) (outs : List OutMsg)
    (o : Option GuidanceStep) :
    ((commitStep st outs o).1).current = match o with
      | some c => some c
      | none => if !st.completed then none else st.current := by
  cases o with
  | some s => rfl
  | none =>
    simp only [commitStep]
    split
    · rfl
    · rfl

/-- A step the heuristic planner returns never carries a selector already in
history: used selectors score exactly −1000 (below both the −500 filter and
the positivity check), and both fallback
searches require the selector to be unused. -/
lemma heuristicPlan_not_used (page : PageData) (st : SessionState) (s : GuidanceStep)
    (h : heuristicPlan page st = some s) : s.selector ∉ usedSelectorsOf st := by
  intro hmem
  have hcontains : (usedSelectorsOf st).contains s.selector = true := List.elem_iff.mpr hmem
  simp only [heuristicPlan] at h
  by_cases h0 : page.elements.length = 0
  · rw [if_pos h0] at h; cases h
  · rw [if_neg h0] at h
    by_cases h1 : detectPhase page = .success ∧ st.step > 1
    · rw [if_pos h1] at h; cases h
    · rw [if_neg h1] at h
      have hfb : fallbackPlan page st (detectPhase page) (usedSelectorsOf st) = some s → False := by
        intro hf
        unfold fallbackPlan at hf
        cases hfi : fallbackInputEl page (usedSelectorsOf st) with
        | some fi =>
          rw [hfi] at hf
          cases hf
          have hp := List.find?_some hfi
          simp only [Bool.and_eq_true, Bool.not_eq_true'] at hp
          exact absurd
            (hp.2.symm.trans
              (show (usedSelectorsOf st).contains fi.selector = true from hcontains))
            (by simp)
        | none =>
          rw [hfi] at hf
          cases hfb2 : fallbackButtonEl page (usedSelectorsOf st) with
          | some fb =>
            rw [hfb2] at hf
            cases hf
            have hp := List.find?_some hfb2
            simp only [Bool.and_eq_true, Bool.not_eq_true'] at hp
            exact absurd
              (hp.1.2.symm.trans
                (show (usedSelectorsOf st).contains fb.selector = true from hcontains))
              (by simp)
          | none => rw [hfb2] at hf; cases hf
      cases hh : (rankedOf page st).head? with
      | none => simp only [hh] at h; exact hfb h
      | some top =>
        simp only [hh] at h
        by_cases hpos : top.2 > 0
        · rw [if_pos hpos] at h
          cases h
          have hmemr := mem_rankedOf (head?_mem hh)
          have hsc := mem_scoredOf hmemr.1
          have hused : (usedSelectorsOf st).contains top.1.selector = true := by
            simpa [stepFor] using hcontains
          have := @score_of_used top.1 (tokenize st.goal) (usedSelectorsOf st)
            (usedTextsOf st) (detectPhase page) page.hasOpenDialog hused
          omega
        · rw [if_neg hpos] at h
          exact hfb h

/-- C2 counterexample: in llm mode the model's parsed answer is committed
without any check against history — the plan pass commits a step whose
selector is already in the session history. -/
theorem no_repeat_llm_cex :
    (processTab exRepeatT (.ok exRepeatPage) (some exRepeatCfg) exRepeatSt).1.current
        = some exRepeatStep ∧
      exRepeatStep.selector ∈ usedSelectorsOf exRepeatSt := by
  refine ⟨?_, by decide⟩
  decide

/-- C2 (amended): no step produced by heuristicPlan — and hence no step
committed by a heuristic-mode plan pass, on the first-attempt path and on the
retry-after-throw path alike — repeats a selector already in history; a step
parsed from an llm response is committed unchecked and may repeat one. -/
theorem no_repeat :
    (∀ page st s, heuristicPlan page st = some s → s.selector ∉ usedSelectorsOf st) ∧
    (∀ t page cfg st s, st.mode = .heuristic → st.active = true → st.completed = false →
      ((processTab t (.ok page) cfg st).1).current = some s →
      s.selector ∉ usedSelectorsOf st) ∧
    (∀ t page cfg st s, st.mode = .heuristic → st.active = true → st.completed = false →
      st.current = none →
      ((processTab t (.retryOk page) cfg st).1).current = some s →
      s.selector ∉ usedSelectorsOf st) := by
  refine ⟨heuristicPlan_not_used, ?_, ?_⟩
  · intro t page cfg st s hm ha hc hcur
    rw [processTab_ok_eq t page cfg st (by simp [ha, hc])] at hcur
    unfold processPage at hcur
    by_cases hs : (decide (st.step > 1) && isSuccessPage page) = true
    · rw [if_pos hs] at hcur
      cases hcur
    · rw [if_neg hs] at hcur
      rw [commitStep_current] at hcur
      by_cases hstuck : stuckFor st (plan t page cfg st) = true
      · rw [if_pos hstuck] at hcur
        rw [hc] at hcur
        cases hcur
      · rw [if_neg hstuck] at hcur
        cases hp : plan t page cfg st with
        | none => rw [hp] at hcur; rw [hc] at hcur; cases hcur
        | some c =>
          rw [hp] at hcur
          cases hcur
          exact heuristicPlan_not_used page st s ((plan_heuristic hm).symm.trans hp)
  · intro t page cfg st s hm ha hc hcn hcur
    rw [processTab_retryOk_eq t page cfg st (by simp [ha, hc])] at hcur
    unfold retryPass at hcur
    cases hp : plan t page cfg st with
    | none =>
      rw [hp] at hcur
      rw [hcn] at hcur
      cases hcur
    | some c =>
      rw [hp] at hcur
      cases hcur
      exact heuristicPlan_not_used page st s ((plan_heuristic hm).symm.trans hp)

/-- Witness for C2: a committed heuristic step at a concrete session with
history avoids every used selector. -/
theorem no_repeat_witness :
    exNoRepStep.selector ∉ usedSelectorsOf exNoRepSt :=
  no_repeat.2.1 .aborted exNoRepPage none exNoRepSt exNoRepStep rfl rfl rfl (by decide)

/-- Outcome of a plan pass that reaches the planner and finds its candidate
stuck: the candidate is discarded, `current` is cleared, and the stuck notice
is broadcast. -/
lemma processTab_stuck (t : LlmTransport) (page : PageData) (cfg : Option LLMConfig)
    (st : SessionState) (c : GuidanceStep)
    (ha : st.active = true) (hc : st.completed = false)
    (hn : (decide (st.step > 1) && isSuccessPage page) = false)
    (hp : plan t page cfg st = some c) (hs : isStuck st c = true) :
    (processTab t (.ok page) cfg st).1.current = none ∧
      OutMsg.errorMsg stuckMsg ∈ (processTab t (.ok page) cfg st).2 := by
  rw [processTab_ok_eq t page cfg st (by simp [ha, hc])]
  unfold processPage
  rw [hn]
  simp only [Bool.false_eq_true, if_false]
  have hstuck : stuckFor st (plan t page cfg st) = true := by rw [hp]; exact hs
  rw [hstuck]
  simp only [if_true]
  constructor
  · rw [commitStep_current]
    rw [hc]
    rfl
  · simp [commitStep, hc]

/-- Outcome of a plan pass that reaches the planner with a non-stuck
candidate: the candidate is committed as `current`. -/
lemma processTab_commit_some (t : LlmTransport) (page : PageData)
    (cfg : Option LLMConfig) (st : SessionState) (c : GuidanceStep)
    (ha : st.active = true) (hc : st.completed = false)
    (hn : (decide (st.step > 1) && isSuccessPage page) = false)
    (hp : plan t page cfg st = some c) (hs : isStuck st c = false) :
    (processTab t (.ok page) cfg st).1.current = some c := by
  rw [processTab_ok_eq t page cfg st (by simp [ha, hc])]
  unfold processPage
  rw [hn]
  simp only [Bool.false_eq_true, if_false]
  have hstuck : stuckFor st (plan t page cfg st) = false := by rw [hp]; exact hs
  rw [hstuck]
  simp only [Bool.false_eq_true, if_false, hp]
  rfl

/-- C4: a non-2xx transport response makes llmPlan return null (no error is
raised — the embedding is total), the plan pass falls back to the heuristic
planner in the same pass, and the committed `current` equals that of the same
pass run in heuristic mode. -/
theorem llm_fallback (page : PageData) (st : SessionState) (cfg : LLMConfig)
    (body : Option String) (t : LlmTransport)
    (hm : st.mode = .llm) (hk : cfg.apiKey ≠ "") :
    llmPlan (.response false body) page st cfg = none ∧
    plan (.response false body) page (some cfg) st = heuristicPlan page st ∧
    ((processTab (.response false body) (.ok page) (some cfg) st).1).current =
      ((processTab t (.ok page) (some cfg) { st with mode := PlannerMode.heuristic }).1).current := by
  have hplanL : plan (.response false body) page (some cfg) st = heuristicPlan page st := by
    unfold plan
    show (if st.mode = PlannerMode.llm ∧ cfg.apiKey ≠ "" then
        (match llmPlan (.response false body) page st cfg with
          | some s => some s
          | none => heuristicPlan page st)
      else heuristicPlan page st) = heuristicPlan page st
    rw [if_pos ⟨hm, hk⟩]
    rfl
  refine ⟨rfl, hplanL, ?_⟩
  have hplanR : plan t page (some cfg) { st with mode := PlannerMode.heuristic }
      = heuristicPlan page st :=
    (plan_heuristic rfl).trans (by rfl)
  have e2 : ({ st with mode := PlannerMode.heuristic } : SessionState).completed = st.completed := rfl
  have e3 : ({ st with mode := PlannerMode.heuristic } : SessionState).step = st.step := rfl
  have e6 : ({ st with mode := PlannerMode.heuristic } : SessionState).current = st.current := rfl
  by_cases hg : (!st.active || st.completed) = true
  · have hg' : (!({ st with mode := PlannerMode.heuristic } : SessionState).active ||
        ({ st with mode := PlannerMode.heuristic } : SessionState).completed) = true := hg
    rw [show processTab (LlmTransport.response false body) (.ok page) (some cfg) st = (st, [])
        from by unfold processTab; rw [if_pos hg]]
    rw [show processTab t (.ok page) (some cfg) { st with mode := PlannerMode.heuristic }
          = ({ st with mode := PlannerMode.heuristic }, [])
        from by unfold processTab; rw [if_pos hg']]
  · have hgf : (!st.active || st.completed) = false := bool_not_true hg
    have hgf' : (!({ st with mode := PlannerMode.heuristic } : SessionState).active ||
        ({ st with mode := PlannerMode.heuristic } : SessionState).completed) = false := hgf
    rw [processTab_ok_eq _ _ _ _ hgf, processTab_ok_eq _ _ _ _ hgf']
    unfold processPage
    rw [hplanL, hplanR, e3]
    have e4 : stuckFor { st with mode := PlannerMode.heuristic } (heuristicPlan page st)
        = stuckFor st (heuristicPlan page st) := rfl
    rw [e4]
    by_cases hsc : (decide (st.step > 1) && isSuccessPage page) = true
    · rw [if_pos hsc, if_pos hsc]
    · rw [if_neg hsc, if_neg hsc]
      rw [commitStep_current, commitStep_current, e2, e6]

/-- Witness for C4 at a concrete snapshot, llm-mode session and config. -/
theorem llm_fallback_witness :
    llmPlan (.response false (some "err")) exFbPage exFbSt exFbCfg = none ∧
    plan (.response false (some "err")) exFbPage (some exFbCfg) exFbSt
      = heuristicPlan exFbPage exFbSt ∧
    ((processTab (.response false (some "err")) (.ok exFbPage) (some exFbCfg) exFbSt).1).current =
      ((processTab .aborted (.ok exFbPage) (some exFbCfg)
        { exFbSt with mode := PlannerMode.heuristic }).1).current :=
  llm_fallback exFbPage exFbSt exFbCfg (some "err") .aborted rfl (by decide)

/-- C5 counterexample: on the retry-after-throw path the candidate bypasses
the stuck check — with 3 identical "#submit" records and a 4th "#submit"
candidate from the llm planner, the retried pass commits the candidate as
`current` and emits no stuck notice. -/
theorem stuck_detection_retry_cex :
    (recentOf exStuckSt).length = 3 ∧
    ((recentOf exStuckSt).all fun h => h.selector == exStuckStep.selector) = true ∧
    plan exStuckT exStuckPage (some exStuckCfg) exStuckSt = some exStuckStep ∧
    (processTab exStuckT (.retryOk exStuckPage) (some exStuckCfg) exStuckSt).1.current
      = some exStuckStep ∧
    OutMsg.errorMsg stuckMsg ∉
      (processTab exStuckT (.retryOk exStuckPage) (some exStuckCfg) exStuckSt).2 := by
  refine ⟨rfl, by decide, by decide, by decide, by decide⟩

/-- C5 (amended): on a plan pass whose snapshot extraction succeeds on the
first attempt, a candidate matching the selector of the 3 most recent history
records is discarded with a stuck notice and `current` stays null; with fewer
than 3 records a candidate is never flagged stuck and is committed; a
candidate whose text hint is longer than 3 characters and equal to the text of
the 3 most recent records is likewise discarded; on the retry-after-throw path
the candidate is committed with no stuck check and no stuck notice. -/
theorem stuck_detection :
    (∀ t page cfg st c,
      st.active = true → st.completed = false →
      (decide (st.step > 1) && isSuccessPage page) = false →
      plan t page cfg st = some c →
      (recentOf st).length = 3 →
      ((recentOf st).all fun h => h.selector == c.selector) = true →
      (processTab t (.ok page) cfg st).1.current = none ∧
        OutMsg.errorMsg stuckMsg ∈ (processTab t (.ok page) cfg st).2) ∧
    (∀ st c, st.history.length < 3 → isStuck st c = false) ∧
    (∀ t page cfg st c,
      st.active = true → st.completed = false →
      (decide (st.step > 1) && isSuccessPage page) = false →
      plan t page cfg st = some c →
      st.history.length < 3 →
      (processTab t (.ok page) cfg st).1.current = some c) ∧
    (∀ t page cfg st c,
      st.active = true → st.completed = false →
      (decide (st.step > 1) && isSuccessPage page) = false →
      plan t page cfg st = some c →
      (recentOf st).length = 3 →
      c.textHint.length > 3 →
      ((recentOf st).all fun h => h.text == c.textHint) = true →
      (processTab t (.ok page) cfg st).1.current = none ∧
        OutMsg.errorMsg stuckMsg ∈ (processTab t (.ok page) cfg st).2) ∧
    (∀ t page cfg st c,
      st.active = true → st.completed = false →
      plan t page cfg st = some c →
      (processTab t (.retryOk page) cfg st).1.current = some c ∧
        OutMsg.errorMsg stuckMsg ∉ (processTab t (.retryOk page) cfg st).2) := by
  have hshort : ∀ (st : SessionState) (c : GuidanceStep), st.history.length < 3 →
      isStuck st c = false := by
    intro st c hlen
    unfold isStuck
    rw [if_pos]
    simp only [recentOf, List.length_drop]
    omega
  refine ⟨?_, hshort, ?_, ?_, ?_⟩
  · intro t page cfg st c ha hc hn hp hrec hsel
    refine processTab_stuck t page cfg st c ha hc hn hp ?_
    unfold isStuck
    rw [if_neg (by rw [hrec]; omega), hsel]
    rfl
  · intro t page cfg st c ha hc hn hp hlen
    exact processTab_commit_some t page cfg st c ha hc hn hp (hshort st c hlen)
  · intro t page cfg st c ha hc hn hp hrec hlen htext
    refine processTab_stuck t page cfg st c ha hc hn hp ?_
    unfold isStuck
    rw [if_neg (by rw [hrec]; omega), htext]
    simp [hlen]
  · intro t page cfg st c ha hc hp
    rw [processTab_retryOk_eq t page cfg st (by simp [ha, hc])]
    unfold retryPass
    rw [hp]
    exact ⟨rfl, by simp⟩

/-- Witness for C5: three "#submit" records plus a fourth "#submit" candidate
from the llm path are discarded with a stuck notice. -/
theorem stuck_detection_witness :
    (processTab exStuckT (.ok exStuckPage) (some exStuckCfg) exStuckSt).1.current = none ∧
      OutMsg.errorMsg stuckMsg
        ∈ (processTab exStuckT (.ok exStuckPage) (some exStuckCfg) exStuckSt).2 :=
  stuck_detection.1 exStuckT exStuckPage (some exStuckCfg) exStuckSt exStuckStep
    rfl rfl (by decide) (by decide) rfl (by decide)

/-- C7 counterexample: an email-like input coexists with an input that is
password-like according to the claim's matching rules (its label contains
"password"), no success word matches, and yet detectPhase does not return
login, because the code never consults the label for password detection. -/
theorem detectPhase_login_label_cex :
    hasEmailInput exPwPage = true ∧
      exPwPage.elements.any passwordLikeClaim = true ∧
      successHit exPwPage = false ∧
      detectPhase exPwPage ≠ .login := by
  refine ⟨rfl, rfl, rfl, ?_⟩
  decide

/-- C8 counterexample: on a success-phase snapshot with step > 1, heuristicPlan
returns null even though an element scores positively, contradicting the claim
that a positive-scoring snapshot always yields the highest-scoring element. -/
theorem heuristicPlan_success_cex :
    heuristicPlan exSuccPage exSuccSt = none ∧
      exSuccPage.elements = [exSuccBtn] ∧
      score exSuccBtn (tokenize exSuccSt.goal) (usedSelectorsOf exSuccSt)
        (usedTextsOf exSuccSt) (detectPhase exSuccPage) exSuccPage.hasOpenDialog > 0 := by
  refine ⟨rfl, rfl, ?_⟩
  decide

/-- C8 (amended): heuristicPlan equals the spec-side selection — null on an
empty snapshot and on a success-phase snapshot with step > 1; otherwise the
first element attaining the maximal score when that maximum is positive, and
the two ordered fallbacks (the second of which also requires the element not to
be input-flagged) when it is not. -/
theorem heuristicPlan_eq_spec (page : PageData) (st : SessionState) :
    heuristicPlan page st = heuristicPlanSpec page st := by
  simp only [heuristicPlan, heuristicPlanSpec]
  by_cases h0 : page.elements.length = 0
  · rw [if_pos h0, if_pos h0]
  · rw [if_neg h0, if_neg h0]
    by_cases h1 : detectPhase page = .success ∧ st.step > 1
    · rw [if_pos h1, if_pos h1]
    · rw [if_neg h1, if_neg h1]
      obtain ⟨b, hb⟩ : ∃ b, pickBest (scoredOf page st) = some b := by
        cases hs : scoredOf page st with
        | nil =>
          exact absurd (by simpa [scoredOf] using congrArg List.length hs) h0
        | cons a tl => exact pickBest_isSome a tl
      simp only [hb]
      by_cases hpos : b.2 > 0
      · have hfilter : (rankedOf page st).head? = some b :=
          (headInsertionSort _).trans (pickBest_filter hb (by omega))
        simp only [hfilter]
      · rw [if_neg hpos]
        cases hh : (rankedOf page st).head? with
        | none => simp only [hh]
        | some top =>
          simp only [hh]
          have htop : top.2 ≤ b.2 := pickBest_le hb top (mem_rankedOf (head?_mem hh)).1
          rw [if_neg (by omega)]

/-- C1 counterexample: with an active panel, the input fallback of
heuristicPlan targets an element outside the panel. -/
theorem panel_exclusivity_cex :
    exPanelPage.hasOpenDialog = true ∧
      heuristicPlan exPanelPage EMPTY_STATE = some exPanelStep ∧
      exPanelEl ∈ exPanelPage.elements ∧
      exPanelEl.isInDialog = false ∧
      exPanelStep.selector = exPanelEl.selector := by
  refine ⟨rfl, ?_, ?_, rfl, rfl⟩
  · decide
  · exact List.mem_cons_self _ _

/-- C1 (amended): with an active panel, any step the score-based ranking
returns targets an in-panel element (out-of-panel elements score −2000 when
unused and −1000 when used, so they can never score positively); only the two
fallback paths, which do not consult the in-panel flag, can target an element
outside the panel. -/
theorem panel_exclusivity (page : PageData) (st : SessionState) (s : GuidanceStep)
    (hd : page.hasOpenDialog = true) (h : heuristicPlan page st = some s) :
    targetsInDialog page s = true ∨
      (fallbackInputEl page (usedSelectorsOf st)).map (·.selector) = some s.selector ∨
      (fallbackButtonEl page (usedSelectorsOf st)).map (·.selector) = some s.selector := by
  simp only [heuristicPlan] at h
  by_cases h0 : page.elements.length = 0
  · rw [if_pos h0] at h; cases h
  · rw [if_neg h0] at h
    by_cases h1 : detectPhase page = .success ∧ st.step > 1
    · rw [if_pos h1] at h; cases h
    · rw [if_neg h1] at h
      have hfb : fallbackPlan page st (detectPhase page) (usedSelectorsOf st) = some s →
          (fallbackInputEl page (usedSelectorsOf st)).map (·.selector) = some s.selector ∨
          (fallbackButtonEl page (usedSelectorsOf st)).map (·.selector) = some s.selector := by
        intro hf
        unfold fallbackPlan at hf
        cases hfi : fallbackInputEl page (usedSelectorsOf st) with
        | some fi =>
          rw [hfi] at hf
          cases hf
          left; rfl
        | none =>
          rw [hfi] at hf
          cases hfb2 : fallbackButtonEl page (usedSelectorsOf st) with
          | some fb => rw [hfb2] at hf; cases hf; right; rfl
          | none => rw [hfb2] at hf; cases hf
      cases hh : (rankedOf page st).head? with
      | none => simp only [hh] at h; exact Or.inr (hfb h)
      | some top =>
        simp only [hh] at h
        by_cases hpos : top.2 > 0
        · rw [if_pos hpos] at h
          left
          have hmem := mem_rankedOf (head?_mem hh)
          have hsc := mem_scoredOf hmem.1
          have hdg : top.1.isInDialog = true := by
            by_contra hc
            have hc' : top.1.isInDialog = false := by
              cases hdd : top.1.isInDialog
              · rfl
              · exact absurd hdd hc
            have hle := @score_dialog_le top.1 (tokenize st.goal) (usedSelectorsOf st)
              (usedTextsOf st) (detectPhase page) hc'
            rw [hd] at hsc
            omega
          cases h
          unfold targetsInDialog
          refine List.any_eq_true.mpr ⟨top.1, hsc.1, ?_⟩
          simp [hdg, stepFor]
        · rw [if_neg hpos] at h
          exact Or.inr (hfb h)

/-- Witness for C1: with an in-panel button that scores positively, the
returned step targets the panel. -/
theorem panel_exclusivity_witness :
    targetsInDialog exPanelInPage exPanelInStep = true ∨
      (fallbackInputEl exPanelInPage (usedSelectorsOf EMPTY_STATE)).map (·.selector)
        = some exPanelInStep.selector ∨
      (fallbackButtonEl exPanelInPage (usedSelectorsOf EMPTY_STATE)).map (·.selector)
        = some exPanelInStep.selector :=
  panel_exclusivity exPanelInPage EMPTY_STATE exPanelInStep rfl (by decide)

/-- C7 (amended): detectPhase returns login exactly when no success word
matched and both scans fire, where the email/username scan matches the raw
attribute type case-sensitively and placeholder/label case-insensitively, and
the password scan requires attribute type exactly "password" or a placeholder
containing "password" — the label is not consulted. -/
theorem detectPhase_login_iff (page : PageData) :
    detectPhase page = .login ↔
      successHit page = false ∧ hasEmailInput page = true ∧ hasPasswordInput page = true := by
  unfold detectPhase
  by_cases h1 : successHit page
  · simp [h1]
  · have h1' : successHit page = false := by simpa using h1
    rw [h1']
    simp only [Bool.false_eq_true, if_false]
    rcases Bool.eq_false_or_eq_true (hasEmailInput page) with h2 | h2 <;>
      rcases Bool.eq_false_or_eq_true (hasPasswordInput page) with h3 | h3 <;>
        rw [h2, h3] <;>
        simp only [Bool.and_false, Bool.false_and, Bool.and_true, Bool.true_and] <;>
        first
          | (simp; done)
          | exact iff_of_false
              (by
                intro h
                rw [if_neg (by simp)] at h
                split at h
                · exact absurd h (by simp)
                · split at h <;> exact absurd h (by simp))
              (by simp)

end NavAI
